import Mathlib

/-!
Shallow embedding of the `@socket.io/mongo-adapter` package (src/lib/index.ts),
covering the event record data model, the publisher, peer-liveness tracking,
the fan-out request machinery, session persistence/restore, and the change
stream self-filter.  Log positions (MongoDB ObjectIds, monotonically
increasing) are modelled as natural numbers; the shared collection is a list
of stored documents in append (log) order; timestamps are milliseconds as
naturals.
-/

deriving instance DecidableEq for Except

namespace MongoAdapter

/-- Event types for messages between nodes (src/lib/index.ts, `enum EventType`,
values 1..13 in declaration order). -/
inductive EventType where
  | INITIAL_HEARTBEAT
  | HEARTBEAT
  | BROADCAST
  | SOCKETS_JOIN
  | SOCKETS_LEAVE
  | DISCONNECT_SOCKETS
  | FETCH_SOCKETS
  | FETCH_SOCKETS_RESPONSE
  | SERVER_SIDE_EMIT
  | SERVER_SIDE_EMIT_RESPONSE
  | BROADCAST_CLIENT_COUNT
  | BROADCAST_ACK
  | SESSION
  deriving DecidableEq, Repr

/-- A socket.io packet, as far as the adapter inspects it: `packet.type`
(2 for event packets), `packet.id` (set when an acknowledgement is expected)
and `packet.data` (the payload array; offsets are appended to it by
`addOffsetIfNecessary`). -/
structure Packet where
  type : Nat := 2
  id : Option Nat := none
  data : List String := []
  deriving DecidableEq, Repr

/-- Broadcast flags, as far as the adapter inspects them.  In the source the
flags object is optional and its fields may be `undefined`; an absent flag is
modelled as `false`.  `local` is a Lean keyword, hence the field name
`localFlag`. -/
structure Flags where
  localFlag : Bool := false
  volatile : Bool := false
  deriving DecidableEq, Repr

/-- Broadcast options after `serializeOptions` (src 507-513): the `rooms` and
`except` sets turned into plain arrays, plus the flags. -/
structure SerOpts where
  rooms : List String := []
  except : List String := []
  flags : Flags := {}
  deriving DecidableEq, Repr

/-- The session blob carried by a `SESSION` record and returned by
`restoreSession`: the private session id, the rooms the session was in, and
the transient `missedPackets` array populated during restore. -/
structure SessionInfo where
  pid : String
  rooms : List String := []
  missedPackets : List (List String) := []
  deriving DecidableEq, Repr

/-- The `data` field of a stored document, one variant per event kind the
claims inspect (`data?: any` in the source). -/
inductive EventData where
  | nodata
  | broadcast (packet : Packet) (opts : SerOpts) (requestId : Option String)
  | socketsOp (opts : SerOpts) (rooms : List String)
  | disconnect (opts : SerOpts) (close : Bool)
  | fetchRequest (opts : SerOpts) (requestId : String)
  | sse (packet : List String) (requestId : Option String)
  | session (s : SessionInfo)
  deriving DecidableEq, Repr

/-- A document of the MongoDB collection (interface `AdapterEvent`, src 38-61),
together with its `_id` modelled as a natural-number log position `pos`. -/
structure StoredDoc where
  pos : Nat
  type : EventType
  uid : Option String
  nsp : Option String
  createdAt : Option Nat := none
  data : EventData
  deriving DecidableEq, Repr

/-- The shared collection, in log (insertion) order. -/
abbrev Store := List StoredDoc

/-- Per-namespace adapter state (class `MongoAdapter`, src 238-250):
configuration, the `nodesMap` of peer uid to last-seen timestamp, and the
`isClosed` flag set by `close()`. -/
structure AdapterState where
  uid : String
  nspName : String
  requestsTimeout : Nat := 5000
  heartbeatInterval : Nat := 5000
  heartbeatTimeout : Nat := 10000
  addCreatedAtField : Bool := false
  nodesMap : List (String × Nat) := []
  isClosed : Bool := false
  deriving DecidableEq, Repr

/-- `close()` (src 279-285): marks the adapter closed (the heartbeat timer it
also clears is real time, outside the embedding). -/
def closeAdapter (st : AdapterState) : AdapterState :=
  { st with isClosed := true }

/-- The document built by `publish` (src 485-502): the caller-supplied type
and data, stamped with the adapter's `uid` and namespace, the `createdAt`
field when `addCreatedAtField` is set, and the next log position as `_id`. -/
def mkDoc (st : AdapterState) (log : Store) (now : Nat) (ty : EventType)
    (d : EventData) : StoredDoc :=
  { pos := List.length log, type := ty, uid := some st.uid,
    nsp := some st.nspName,
    createdAt := if st.addCreatedAtField then some now else none,
    data := d }

/-- `publish` (src 485-502): rejects with "adapter is closed" when the adapter
has been closed, otherwise appends one stamped document to the collection and
returns its `_id` (the heartbeat rescheduling is real time, outside the
embedding).  The second component is the collection after the call. -/
def publish (st : AdapterState) (log : Store) (now : Nat) (ty : EventType)
    (d : EventData) : Except String Nat × Store :=
  if st.isClosed then (.error "adapter is closed", log)
  else (.ok (List.length log), log ++ [mkDoc st log now ty d])

/-- Runs `publish` and pairs the new collection with the list of documents the
call appended. -/
def publishDocs (st : AdapterState) (log : Store) (now : Nat) (ty : EventType)
    (d : EventData) : Store × List StoredDoc :=
  let r := publish st log now ty d
  (r.2, List.drop (List.length log) r.2)

/-- `serverCount()` (src 615-617): `1 + this.nodesMap.size`, with no pruning
of stale entries. -/
def serverCount (st : AdapterState) : Nat :=
  1 + st.nodesMap.length

/-- `getExpectedResponseCount()` (src 670-679): deletes from `nodesMap` every
node with `now - lastSeen > heartbeatTimeout`, then returns the surviving
count; returns the count together with the pruned state.  (JS `Date.now() -
lastSeen` can be negative when `lastSeen` is in the future, in which case the
comparison is false; truncated `Nat` subtraction yields 0 and agrees.) -/
def getExpectedResponseCount (now : Nat) (st : AdapterState) :
    Nat × AdapterState :=
  let pruned := st.nodesMap.filter (fun p => !(now - p.2 > st.heartbeatTimeout))
  (pruned.length, { st with nodesMap := pruned })

/-! ### Session restore (src 797-889) -/

/-- Value of a hexadecimal digit character. -/
def hexDigitVal (c : Char) : Nat :=
  if c.isDigit then c.toNat - 48
  else if 'a' ≤ c ∧ c ≤ 'f' then c.toNat - 87
  else if 'A' ≤ c ∧ c ≤ 'F' then c.toNat - 55
  else 0

/-- Whether a character is a hexadecimal digit. -/
def isHexChar (c : Char) : Bool :=
  c.isDigit || ('a' ≤ c && c ≤ 'f') || ('A' ≤ c && c ≤ 'F')

/-- `ObjectId.isValid(offset)` (src 801) for a string offset: 24 hexadecimal
characters (the 12-byte-buffer acceptance of the driver does not arise for the
string offsets the adapter hands around). -/
def objectIdIsValid (s : String) : Bool :=
  s.length == 24 && s.toList.all isHexChar

/-- `new ObjectId(offset)` (src 805), mapped to the log-position model: the
numeric value of the hexadecimal offset string. -/
def parseHexNat (s : String) : Nat :=
  s.toList.foldl (fun acc c => 16 * acc + hexDigitVal c) 0

/-- The errors `restoreSession` rejects with, one per rejection site. -/
inductive RestoreError where
  | invalidOffset
  | sessionNotFound
  | fetchError
  | scanError
  deriving DecidableEq, Repr

/-- The exact rejection string of each error (src 802, 821, 825, 885). -/
def RestoreError.message : RestoreError → String
  | .invalidOffset => "invalid offset"
  | .sessionNotFound => "session or offset not found"
  | .fetchError => "error while fetching session"
  | .scanError => "error while fetching missed packets"

/-- The query `{ type: EventType.SESSION, "data.pid": pid }` of the
`findOneAndDelete` call (src 811-814). -/
def isSessionDocFor (pid : String) (d : StoredDoc) : Bool :=
  d.type == EventType.SESSION &&
    (match d.data with
     | .session s => s.pid == pid
     | _ => false)

/-- The session blob of a `SESSION` document. -/
def docSession (d : StoredDoc) : Option SessionInfo :=
  match d.data with
  | .session s => some s
  | _ => none

/-- `findOneAndDelete` (src 811-814): returns the session blob of the first
matching document (the `.value.data` access, src 824/828) and the collection
with that document removed. -/
def findOneAndDeleteSession (pid : String) (log : Store) :
    Option SessionInfo × Store :=
  match log.find? (isSessionDocFor pid) with
  | some d => (docSession d, log.eraseP (isSessionDocFor pid))
  | none => (none, log)

/-- `findOne({ type: EventType.BROADCAST, _id: eventOffset })` (src 815-818). -/
def findBroadcastAt (eventOffset : Nat) (log : Store) : Option StoredDoc :=
  log.find? (fun d => d.type == EventType.BROADCAST && d.pos == eventOffset)

/-- The serialized options carried by a document's `data.opts` field, when the
variant has one. -/
def docOpts (d : StoredDoc) : Option SerOpts :=
  match d.data with
  | .broadcast _ o _ => some o
  | .socketsOp o _ => some o
  | .disconnect o _ => some o
  | .fetchRequest o _ => some o
  | _ => none

/-- The `data.packet.data` field of a document (src 879), when present. -/
def docPacketData (d : StoredDoc) : Option (List String) :=
  match d.data with
  | .broadcast p _ _ => some p.data
  | _ => none

/-- The `$and` filter of the missed-packets scan (src 831-873): type is
`BROADCAST`, `_id` strictly greater than the offset, same namespace,
`data.opts.rooms` is empty (`$size: 0`) or meets `session.rooms` (`$in`), and
`data.opts.except` is empty (`$size: 0`) or avoids `session.rooms` (`$nin`).
A document without a `data.opts` field fails the `$size`/`$in`/`$nin`
clauses. -/
def replayQuery (nspName : String) (eventOffset : Nat)
    (sessRooms : List String) (d : StoredDoc) : Bool :=
  d.type == EventType.BROADCAST &&
  eventOffset < d.pos &&
  d.nsp == some nspName &&
  (match docOpts d with
   | some o =>
     (o.rooms.length == 0 || o.rooms.any (fun r => sessRooms.contains r)) &&
     (o.except.length == 0 || o.except.all (fun r => !sessRooms.contains r))
   | none => false)

/-- `restoreSession(pid, offset)` (src 797-889).  The store I/O failures of
the two phases are injected through `fetchFails` (the `Promise.all` of the
`findOneAndDelete`/`findOne` pair, src 808-822) and `scanFails` (the
`cursor.forEach`, src 877-886); when a flag is set the corresponding phase
rejects exactly as the `catch` blocks do.  Returns the outcome together with
the collection after the call (the `findOneAndDelete` removal is the only
mutation). -/
def restoreSession (nspName pid offset : String) (fetchFails scanFails : Bool)
    (log : Store) : Except RestoreError SessionInfo × Store :=
  if !objectIdIsValid offset then (.error .invalidOffset, log)
  else
    let eventOffset := parseHexNat offset
    if fetchFails then (.error .fetchError, log)
    else
      let fd := findOneAndDeleteSession pid log
      match fd.1, findBroadcastAt eventOffset log with
      | some sess, some _ =>
        if scanFails then (.error .scanError, fd.2)
        else
          let missed :=
            ((fd.2).filter (replayQuery nspName eventOffset sess.rooms)).filterMap
              docPacketData
          (.ok { sess with missedPackets := missed }, fd.2)
      | _, _ => (.error .sessionNotFound, fd.2)

/-! ### Fan-out requests (interface `Request`, src 63-70, and its handlers) -/

/-- A pending fan-out request as stored in the `requests` map: the expected
number of responses, the number received so far, and the accumulated
responses (`timeout` and `resolve` live outside the embedding). -/
structure PendingRequest (α : Type) where
  expected : Nat
  current : Nat
  responses : List α
  deriving DecidableEq, Repr

/-- How a fan-out request completes towards its caller: success with the
accumulated responses, or failure with an error message plus whatever
response data is passed to the caller along with the error. -/
inductive Completion (α : Type) where
  | success (responses : List α)
  | failure (errMsg : String) (delivered : List α)
  deriving DecidableEq, Repr

/-- The timeout error message template (src 696-698 and src 761-763). -/
def timeoutMessage (current expected : Nat) : String :=
  "timeout reached: only " ++ toString current ++
    " responses received out of " ++ toString expected

/-- Handling of one `FETCH_SOCKETS_RESPONSE` / `SERVER_SIDE_EMIT_RESPONSE`
record for a pending request (src 406-424 and 453-468): increment `current`,
append the carried items to `responses`, and, when `current` reaches
`expected`, resolve with the accumulated responses (the request is then
deleted from the map). -/
def onResponse {α : Type} (req : PendingRequest α) (items : List α) :
    PendingRequest α × Option (Completion α) :=
  let req' := { req with current := req.current + 1,
                         responses := req.responses ++ items }
  if req'.current == req'.expected then (req', some (.success req'.responses))
  else (req', none)

/-- Processes a list of response events in order; once a completion fires the
request is deleted from the map, so later events are dropped (src 409-411:
a response for an unknown request id is a no-op). -/
def processResponses {α : Type} (req : PendingRequest α) :
    List (List α) → PendingRequest α × Option (Completion α)
  | [] => (req, none)
  | ev :: rest =>
    match onResponse req ev with
    | (req', some c) => (req', some c)
    | (req', none) => processResponses req' rest

/-- The `fetchSockets` deadline handler (src 692-702): the promise is rejected
with `new Error(timeoutMessage ...)` built from the stored request; only the
error is passed to `reject`, so no response data accompanies it. -/
def fetchTimeoutCompletion {α : Type} (req : PendingRequest α) : Completion α :=
  .failure (timeoutMessage req.current req.expected) []

/-- The `serverSideEmitWithAck` deadline handler (src 757-768): the
acknowledgement callback receives `new Error(timeoutMessage ...)` together
with `storedRequest.responses`. -/
def sseTimeoutCompletion {α : Type} (req : PendingRequest α) : Completion α :=
  .failure (timeoutMessage req.current req.expected) req.responses

/-! ### Public operations and their publish effects -/

/-- `addOffsetIfNecessary` (src 558-575): when connection state recovery is
enabled on the server and the packet is an event packet (type 2) without an
acknowledgement id and the broadcast is not volatile, the offset is appended
to the packet's data array (the ObjectId hex rendering of the position is
abstracted to `toString`). -/
def addOffsetIfNecessary (csrEnabled : Bool) (packet : Packet) (opts : SerOpts)
    (offset : Nat) : Packet :=
  if !csrEnabled then packet
  else if packet.type == 2 && packet.id == none && opts.flags.volatile == false
  then { packet with data := packet.data ++ [toString offset] }
  else packet

/-- The outcome of a `broadcast` call (src 523-547): the collection after the
call, the documents the call appended, the packet handed to the local
`super.broadcast` (after `addOffsetIfNecessary`), and whether the local
delivery step (`super.broadcast`, src 544-546) runs at all.  `broadcast` is a
total function into this type: the `try`/`catch` around the publish
(src 526-538) turns a publish rejection into a plain `return`. -/
structure BroadcastOutcome where
  log : Store
  published : List StoredDoc
  packet : Packet
  localDelivered : Bool
  deriving DecidableEq, Repr

/-- `broadcast(packet, opts)` (src 523-547): with the `local` flag, skip the
publish; otherwise publish one `BROADCAST` record, and on success append the
offset to the packet if necessary, while on a publish rejection return
immediately, skipping the local `super.broadcast`. -/
def broadcastOp (st : AdapterState) (log : Store) (now : Nat)
    (csrEnabled : Bool) (packet : Packet) (opts : SerOpts) : BroadcastOutcome :=
  if opts.flags.localFlag then
    { log := log, published := [], packet := packet, localDelivered := true }
  else
    match publish st log now EventType.BROADCAST (.broadcast packet opts none) with
    | (.ok off, log') =>
      { log := log', published := List.drop (List.length log) log',
        packet := addOffsetIfNecessary csrEnabled packet opts off,
        localDelivered := true }
    | (.error _, log') =>
      { log := log', published := List.drop (List.length log) log',
        packet := packet, localDelivered := false }

/-- `broadcastWithAck(packet, opts, ...)` (src 577-613): with the `local`
flag, no publish and no pending ack; otherwise one `BROADCAST` record carrying
the request id is published and an ack request is registered.  In both cases
the local `super.broadcastWithAck` runs.  Returns the collection, the appended
documents, and whether an ack request was registered. -/
def broadcastWithAckOp (st : AdapterState) (log : Store) (now : Nat)
    (packet : Packet) (opts : SerOpts) (requestId : String) :
    Store × List StoredDoc × Bool :=
  if opts.flags.localFlag then (log, [], false)
  else
    let pd := publishDocs st log now EventType.BROADCAST
      (.broadcast packet opts (some requestId))
    (pd.1, pd.2, true)

/-- `addSockets(opts, rooms)` (src 619-634): local effect first, then, unless
the `local` flag is set, one `SOCKETS_JOIN` record. -/
def addSocketsOp (st : AdapterState) (log : Store) (now : Nat)
    (opts : SerOpts) (rooms : List String) : Store × List StoredDoc :=
  if opts.flags.localFlag then (log, [])
  else publishDocs st log now EventType.SOCKETS_JOIN (.socketsOp opts rooms)

/-- `delSockets(opts, rooms)` (src 636-651): local effect first, then, unless
the `local` flag is set, one `SOCKETS_LEAVE` record. -/
def delSocketsOp (st : AdapterState) (log : Store) (now : Nat)
    (opts : SerOpts) (rooms : List String) : Store × List StoredDoc :=
  if opts.flags.localFlag then (log, [])
  else publishDocs st log now EventType.SOCKETS_LEAVE (.socketsOp opts rooms)

/-- `disconnectSockets(opts, close)` (src 653-668): local effect first, then,
unless the `local` flag is set, one `DISCONNECT_SOCKETS` record. -/
def disconnectSocketsOp (st : AdapterState) (log : Store) (now : Nat)
    (opts : SerOpts) (close : Bool) : Store × List StoredDoc :=
  if opts.flags.localFlag then (log, [])
  else publishDocs st log now EventType.DISCONNECT_SOCKETS
    (.disconnect opts close)

/-- The entry outcome of `fetchSockets` (src 681-722): the collection, the
appended documents, `immediate = some sockets` when the promise resolves
immediately with the locally fetched sockets, the pending request registered
in the `requests` map if any, and the adapter state after the
`getExpectedResponseCount` pruning. -/
structure FetchOutcome where
  log : Store
  published : List StoredDoc
  immediate : Option (List String)
  registered : Option (PendingRequest String)
  state : AdapterState
  deriving DecidableEq, Repr

/-- `fetchSockets(opts)` (src 681-722): fetch the local sockets, compute the
expected response count (pruning stale peers), return the local sockets alone
when the `local` flag is set or the count is 0; otherwise register a pending
request seeded with the local sockets and publish one `FETCH_SOCKETS`
record. -/
def fetchSocketsOp (st : AdapterState) (log : Store) (now : Nat)
    (opts : SerOpts) (requestId : String) (localSockets : List String) :
    FetchOutcome :=
  let pr := getExpectedResponseCount now st
  if opts.flags.localFlag || pr.1 == 0 then
    { log := log, published := [], immediate := some localSockets,
      registered := none, state := pr.2 }
  else
    let pd := publishDocs pr.2 log now EventType.FETCH_SOCKETS
      (.fetchRequest opts requestId)
    { log := pd.1, published := pd.2, immediate := none,
      registered := some ⟨pr.1, 0, localSockets⟩, state := pr.2 }

/-- The entry outcome of `serverSideEmitWithAck` (src 742-787):
`immediateAck = some (err?, responses)` when the acknowledgement is invoked
synchronously. -/
structure SseOutcome where
  log : Store
  published : List StoredDoc
  immediateAck : Option (Option String × List String)
  registered : Option (PendingRequest String)
  state : AdapterState
  deriving DecidableEq, Repr

/-- `serverSideEmitWithAck(packet)` (src 742-787): compute the expected
response count (pruning stale peers); when it is `<= 0`, call
`ack(null, [])` immediately and publish nothing; otherwise register a pending
request with empty responses and publish one `SERVER_SIDE_EMIT` record
carrying the request id. -/
def serverSideEmitWithAckOp (st : AdapterState) (log : Store) (now : Nat)
    (packet : List String) (requestId : String) : SseOutcome :=
  let pr := getExpectedResponseCount now st
  if pr.1 ≤ 0 then
    { log := log, published := [], immediateAck := some (none, []),
      registered := none, state := pr.2 }
  else
    let pd := publishDocs pr.2 log now EventType.SERVER_SIDE_EMIT
      (.sse packet (some requestId))
    { log := pd.1, published := pd.2, immediateAck := none,
      registered := some ⟨pr.1, 0, []⟩, state := pr.2 }

/-! ### Change stream self-filter (src 162-206) -/

/-- The `$match` pipeline stage of the `watch` call (src 167-180):
`fullDocument.uid $ne` the process's own uid (a document without a `uid`
field also passes `$ne`). -/
def changeStreamMatch (selfUid : String) (d : StoredDoc) : Bool :=
  d.uid != some selfUid

/-- The documents the change stream delivers to the process with identity
`selfUid`, out of the inserted documents in log order; each delivered
document is then dispatched to the adapter of its namespace (src 182-187). -/
def dispatchedDocs (selfUid : String) (inserts : List StoredDoc) :
    List StoredDoc :=
  inserts.filter (changeStreamMatch selfUid)

/-! ### Theorems -/

/-- The adapter state used to exhibit the `serverCount` divergence: one peer
last seen at time 0 under a 200 ms heartbeat timeout, observed at time 300. -/
def c1State : AdapterState :=
  { uid := "self", nspName := "/", heartbeatTimeout := 200,
    nodesMap := [("peerA", 0)] }

/-- Claim C1: the claim (and the changelog entry "exclude offline nodes when
calling serverCount()" of version 0.3.2) says `serverCount()` equals
`1 + expectedPeerCount()` after lazy staleness pruning; the code's
`serverCount` (src 615-617) returns `1 + nodesMap.size` without pruning, so a
peer silent for 300 ms under `heartbeatTimeout = 200` is still counted:
`serverCount` yields 2 while `1 + expectedPeerCount()` yields 1. -/
theorem serverCount_skips_stale_pruning :
    serverCount c1State = 2
    ∧ (getExpectedResponseCount 300 c1State).1 = 0
    ∧ serverCount c1State ≠ 1 + (getExpectedResponseCount 300 c1State).1 := by
  decide

/-- Claim C7: publishing on a closed adapter rejects with exactly
"adapter is closed" and appends nothing to the collection (never a silent
drop), and a publish on a non-closed adapter never takes this branch: it
appends exactly the stamped document and returns its position. -/
theorem publish_rejects_after_close (st : AdapterState) (log : Store)
    (now : Nat) (ty : EventType) (d : EventData) :
    publish (closeAdapter st) log now ty d = (.error "adapter is closed", log)
    ∧ (st.isClosed = false →
        publish st log now ty d
          = (.ok (List.length log), log ++ [mkDoc st log now ty d])) := by
  refine ⟨?_, fun h => ?_⟩
  · simp [publish, closeAdapter]
  · simp [publish, h]

/-- The adapter instance of the C7 witness. -/
def c7State : AdapterState := { uid := "u7", nspName := "/" }

/-- Witness for C7 at a concrete adapter: the closed adapter rejects and
leaves the empty collection empty; the open adapter appends one document. -/
theorem publish_rejects_after_close_witness :
    publish (closeAdapter c7State) [] 0 EventType.HEARTBEAT .nodata
      = (.error "adapter is closed", ([] : Store))
    ∧ publish c7State [] 0 EventType.HEARTBEAT .nodata
      = (.ok 0, [mkDoc c7State [] 0 EventType.HEARTBEAT .nodata]) :=
  ⟨(publish_rejects_after_close c7State [] 0 EventType.HEARTBEAT .nodata).1,
   (publish_rejects_after_close c7State [] 0 EventType.HEARTBEAT .nodata).2 rfl⟩

/-- Claim C9: a document whose `uid` is the process's own uid never passes the
change stream filter, so a process never dispatches its own record; a record
published by process `p` is delivered on any other process `q` exactly as
often as it was inserted. -/
theorem change_stream_self_filter (p q : String) (inserts : List StoredDoc)
    (d : StoredDoc) (hd : d.uid = some p) :
    d ∉ dispatchedDocs p inserts
    ∧ (p ≠ q → (d ∈ dispatchedDocs q inserts ↔ d ∈ inserts)) := by
  refine ⟨fun hmem => ?_, fun hpq => ?_⟩
  · rw [dispatchedDocs, List.mem_filter] at hmem
    simp [changeStreamMatch, hd] at hmem
  · rw [dispatchedDocs, List.mem_filter]
    simp [changeStreamMatch, hd]
    intro _
    exact fun hqp => hpq hqp

/-- The document of the C9 witness: a broadcast record inserted by "p1". -/
def c9doc : StoredDoc :=
  { pos := 0, type := EventType.BROADCAST, uid := some "p1", nsp := some "/",
    data := .nodata }

/-- Witness for C9: the record from "p1" is not dispatched on "p1" but is
dispatched on "p2". -/
theorem change_stream_self_filter_witness :
    c9doc ∉ dispatchedDocs "p1" [c9doc]
    ∧ (c9doc ∈ dispatchedDocs "p2" [c9doc] ↔ c9doc ∈ [c9doc]) :=
  ⟨(change_stream_self_filter "p1" "p2" [c9doc] c9doc rfl).1,
   (change_stream_self_filter "p1" "p2" [c9doc] c9doc rfl).2 (by decide)⟩

/-- Claim C6: when the expected peer count computed at request time is 0,
`fetchSockets` resolves immediately with the locally fetched sockets,
publishes no record and registers no pending request, and
`serverSideEmitWithAck` invokes the acknowledgement with `(null, [])`,
publishes no record and registers no pending request. -/
theorem zero_expected_resolves_locally (st : AdapterState) (log : Store)
    (now : Nat) (opts : SerOpts) (requestId : String)
    (localSockets : List String) (packet : List String)
    (h : (getExpectedResponseCount now st).1 = 0) :
    (fetchSocketsOp st log now opts requestId localSockets).immediate
        = some localSockets
    ∧ (fetchSocketsOp st log now opts requestId localSockets).published = []
    ∧ (fetchSocketsOp st log now opts requestId localSockets).registered = none
    ∧ (serverSideEmitWithAckOp st log now packet requestId).immediateAck
        = some (none, [])
    ∧ (serverSideEmitWithAckOp st log now packet requestId).published = []
    ∧ (serverSideEmitWithAckOp st log now packet requestId).registered
        = none := by
  simp [fetchSocketsOp, serverSideEmitWithAckOp, h]

/-- The adapter state of the C6 witness: its only known peer is stale at the
time of the call (last seen at 0, observed at 500, timeout 100 ms). -/
def c6State : AdapterState :=
  { uid := "u6", nspName := "/", heartbeatTimeout := 100,
    nodesMap := [("a", 0)] }

/-- Witness for C6 at a concrete state whose only peer is stale. -/
theorem zero_expected_resolves_locally_witness :
    (fetchSocketsOp c6State [] 500 {} "r6" ["s1"]).immediate = some ["s1"]
    ∧ (fetchSocketsOp c6State [] 500 {} "r6" ["s1"]).published = []
    ∧ (fetchSocketsOp c6State [] 500 {} "r6" ["s1"]).registered = none
    ∧ (serverSideEmitWithAckOp c6State [] 500 ["e"] "r6").immediateAck
        = some (none, [])
    ∧ (serverSideEmitWithAckOp c6State [] 500 ["e"] "r6").published = []
    ∧ (serverSideEmitWithAckOp c6State [] 500 ["e"] "r6").registered = none :=
  zero_expected_resolves_locally c6State [] 500 {} "r6" ["s1"] ["e"] (by decide)

/-- Claim C10: a `broadcast` call without the `local` flag whose underlying
publish rejects (here: because the adapter is closed) returns normally — the
`try`/`catch` of src 526-538 makes `broadcastOp` a total function — appends
nothing, and skips the local delivery step (`super.broadcast`) entirely. -/
theorem broadcast_publish_failure_skips_local (st : AdapterState) (log : Store)
    (now : Nat) (csrEnabled : Bool) (packet : Packet) (opts : SerOpts)
    (hClosed : st.isClosed = true) (hLocal : opts.flags.localFlag = false) :
    broadcastOp st log now csrEnabled packet opts
      = { log := log, published := [], packet := packet,
          localDelivered := false } := by
  simp [broadcastOp, publish, hClosed, hLocal]

/-- The closed adapter state of the C10 witness. -/
def c10State : AdapterState := { uid := "u10", nspName := "/", isClosed := true }

/-- Witness for C10 at a concrete closed adapter. -/
theorem broadcast_publish_failure_skips_local_witness :
    broadcastOp c10State [] 0 true {} {}
      = { log := [], published := [], packet := {},
          localDelivered := false } :=
  broadcast_publish_failure_skips_local c10State [] 0 true {} {} rfl rfl

/-- Processing fewer response events than `expected` never resolves the
request: the stored request ends up with `current` equal to the number of
events and `responses` equal to the seed followed by all carried items, and
no completion fires. -/
theorem processResponses_no_completion {α : Type} (req : PendingRequest α)
    (events : List (List α)) (h : req.current + events.length < req.expected) :
    processResponses req events =
      ({ expected := req.expected, current := req.current + events.length,
         responses := req.responses ++ events.flatten }, none) := by
  induction events generalizing req with
  | nil => simp [processResponses]
  | cons ev rest ih =>
    have hlen : req.current + (rest.length + 1) < req.expected := by
      simpa using h
    have hne : (req.current + 1 == req.expected) = false := by
      simp only [beq_eq_false_iff_ne, ne_eq]
      omega
    rw [processResponses, onResponse]
    simp only [hne, Bool.false_eq_true, if_false]
    rw [ih _ (by show req.current + 1 + rest.length < req.expected; omega)]
    have harith : req.current + 1 + rest.length = req.current + (rest.length + 1) := by
      omega
    simp [List.flatten_cons, List.append_assoc, harith]

/-- The stored request of the C2 counterexample: a fan-out request expecting
3 responses that has received 2 of them ("a" and "b"). -/
def c2req : PendingRequest String :=
  (processResponses (PendingRequest.mk 3 0 []) [["a"], ["b"]]).1

/-- Counterexample to claim C2: for a `fetchSockets` fan-out request with
`expected = 3` and only 2 responses received when the deadline fires, the
claim says the rejection carries the error message together with the 2
partial responses; the code (src 692-702) rejects with the bare error, so the
delivered completion differs from the claimed one. -/
theorem fetch_timeout_discards_partials_cex :
    c2req.current = 2 ∧ c2req.responses = ["a", "b"]
    ∧ fetchTimeoutCompletion c2req
        ≠ Completion.failure (timeoutMessage c2req.current c2req.expected)
            c2req.responses := by
  decide

/-- Claim C2 (amended): for a fan-out request registered with expected count
`E ≥ 1` that has received only `R < E` responses when the `requestsTimeout`
deadline fires, the completion carries the error message
"timeout reached: only R responses received out of E";
`serverSideEmitWithAck` delivers the accumulated partial responses together
with the error, while `fetchSockets` rejects with the error alone and the
partial responses are not delivered. -/
theorem request_timeout_message_and_partials {α : Type} (expected : Nat)
    (seed : List α) (events : List (List α))
    (h : events.length < expected) :
    (processResponses (PendingRequest.mk expected 0 seed) events).1.current
        = events.length
    ∧ (processResponses (PendingRequest.mk expected 0 seed) events).1.responses
        = seed ++ events.flatten
    ∧ fetchTimeoutCompletion
        (processResponses (PendingRequest.mk expected 0 seed) events).1
        = .failure (timeoutMessage events.length expected) []
    ∧ sseTimeoutCompletion
        (processResponses (PendingRequest.mk expected 0 seed) events).1
        = .failure (timeoutMessage events.length expected)
            (seed ++ events.flatten) := by
  have hp := processResponses_no_completion (PendingRequest.mk expected 0 seed)
    events (by simpa using h)
  rw [hp]
  simp [fetchTimeoutCompletion, sseTimeoutCompletion]

/-- Witness for the amended C2 at `E = 3`, two received responses: the
message is exactly "timeout reached: only 2 responses received out of 3";
the server-side-emit path delivers the two partials, the fetch path none. -/
theorem request_timeout_message_and_partials_witness :
    (processResponses (PendingRequest.mk 3 0 ([] : List String))
        [["a"], ["b"]]).1.current = 2
    ∧ (processResponses (PendingRequest.mk 3 0 ([] : List String))
        [["a"], ["b"]]).1.responses = ["a", "b"]
    ∧ fetchTimeoutCompletion
        (processResponses (PendingRequest.mk 3 0 ([] : List String))
          [["a"], ["b"]]).1
        = .failure "timeout reached: only 2 responses received out of 3" []
    ∧ sseTimeoutCompletion
        (processResponses (PendingRequest.mk 3 0 ([] : List String))
          [["a"], ["b"]]).1
        = .failure "timeout reached: only 2 responses received out of 3"
            ["a", "b"] :=
  request_timeout_message_and_partials 3 [] [["a"], ["b"]] (by decide)

/-- The adapter state of the C8 counterexample: open adapter with an empty
`nodesMap`, so the expected response count of `fetchSockets` is 0. -/
def c8State : AdapterState := { uid := "u8", nspName := "/" }

/-- Counterexample to claim C8: a `fetchSockets` call whose options do not
carry the `local` flag publishes no record at all when the expected peer
count is 0 (src 685-687 returns before the publish), contradicting
"the same call without the local flag publishes exactly one record of the
corresponding event type". -/
theorem fetch_without_local_publishes_nothing_cex :
    ({} : SerOpts).flags.localFlag = false
    ∧ (fetchSocketsOp c8State [] 0 {} "r8" []).published = [] := by
  decide

/-- Claim C8 (amended): for `broadcast`, `broadcastWithAck`, `addSockets`,
`delSockets`, `disconnectSockets` and `fetchSockets`, options carrying the
`local` flag suppress the publish entirely; without the flag, on a non-closed
adapter, each of the first five publishes exactly one record of its event
type, and `fetchSockets` publishes exactly one `FETCH_SOCKETS` record
provided the expected peer count at request time is nonzero — with zero live
peers it publishes nothing. -/
theorem local_flag_suppresses_replication (st : AdapterState) (log : Store)
    (now : Nat) (csrEnabled : Bool) (packet : Packet) (opts : SerOpts)
    (rooms : List String) (close : Bool) (requestId : String)
    (localSockets : List String) :
    (opts.flags.localFlag = true →
      (broadcastOp st log now csrEnabled packet opts).published = []
      ∧ (broadcastWithAckOp st log now packet opts requestId).2.1 = []
      ∧ (addSocketsOp st log now opts rooms).2 = []
      ∧ (delSocketsOp st log now opts rooms).2 = []
      ∧ (disconnectSocketsOp st log now opts close).2 = []
      ∧ (fetchSocketsOp st log now opts requestId localSockets).published = [])
    ∧ (opts.flags.localFlag = false → st.isClosed = false →
      (broadcastOp st log now csrEnabled packet opts).published.map
          StoredDoc.type = [EventType.BROADCAST]
      ∧ (broadcastWithAckOp st log now packet opts requestId).2.1.map
          StoredDoc.type = [EventType.BROADCAST]
      ∧ (addSocketsOp st log now opts rooms).2.map StoredDoc.type
          = [EventType.SOCKETS_JOIN]
      ∧ (delSocketsOp st log now opts rooms).2.map StoredDoc.type
          = [EventType.SOCKETS_LEAVE]
      ∧ (disconnectSocketsOp st log now opts close).2.map StoredDoc.type
          = [EventType.DISCONNECT_SOCKETS]
      ∧ (fetchSocketsOp st log now opts requestId localSockets).published.map
          StoredDoc.type
          = (if (getExpectedResponseCount now st).1 = 0 then []
             else [EventType.FETCH_SOCKETS])) := by
  constructor
  · intro hl
    refine ⟨?_, ?_, ?_, ?_, ?_, ?_⟩ <;>
      simp [broadcastOp, broadcastWithAckOp, addSocketsOp, delSocketsOp,
        disconnectSocketsOp, fetchSocketsOp, hl]
  · intro hl hc
    refine ⟨?_, ?_, ?_, ?_, ?_, ?_⟩
    · simp [broadcastOp, publish, mkDoc, hl, hc, List.drop_left]
    · simp [broadcastWithAckOp, publishDocs, publish, mkDoc, hl, hc,
        List.drop_left]
    · simp [addSocketsOp, publishDocs, publish, mkDoc, hl, hc, List.drop_left]
    · simp [delSocketsOp, publishDocs, publish, mkDoc, hl, hc, List.drop_left]
    · simp [disconnectSocketsOp, publishDocs, publish, mkDoc, hl, hc,
        List.drop_left]
    · by_cases hz : (getExpectedResponseCount now st).1 = 0
      · simp [fetchSocketsOp, hl, hz]
      · have hbz : ((getExpectedResponseCount now st).1 == 0) = false := by
          simpa using hz
        have hstc : ((getExpectedResponseCount now st).2).isClosed
            = st.isClosed := rfl
        simp [fetchSocketsOp, publishDocs, publish, mkDoc, hl, hbz, hstc, hc,
          List.drop_left, hz]

/-- The options of the C8 witness's local half. -/
def c8LocalOpts : SerOpts := { flags := { localFlag := true } }

/-- The adapter state of the C8 witness's replication half: open, with one
live peer (last seen at the time of the call). -/
def c8LiveState : AdapterState :=
  { uid := "u8w", nspName := "/", nodesMap := [("peer", 0)] }

/-- Witness for the amended C8: with the `local` flag, `broadcast` and
`fetchSockets` publish nothing; without it, on an open adapter with one live
peer, `addSockets` publishes one `SOCKETS_JOIN` record and `fetchSockets` one
`FETCH_SOCKETS` record. -/
theorem local_flag_suppresses_replication_witness :
    ((broadcastOp c8LiveState [] 0 false {} c8LocalOpts).published = []
      ∧ (fetchSocketsOp c8LiveState [] 0 c8LocalOpts "r" []).published = [])
    ∧ ((addSocketsOp c8LiveState [] 0 {} ["room"]).2.map StoredDoc.type
        = [EventType.SOCKETS_JOIN]
      ∧ (fetchSocketsOp c8LiveState [] 0 {} "r" []).published.map
          StoredDoc.type = [EventType.FETCH_SOCKETS]) := by
  have hlocal := (local_flag_suppresses_replication c8LiveState [] 0 false {}
    c8LocalOpts ["room"] false "r" []).1 rfl
  have hrepl := (local_flag_suppresses_replication c8LiveState [] 0 false {}
    ({} : SerOpts) ["room"] false "r" []).2 rfl rfl
  refine ⟨⟨hlocal.1, hlocal.2.2.2.2.2⟩, hrepl.2.2.1, ?_⟩
  have := hrepl.2.2.2.2.2
  rwa [if_neg (by decide)] at this

/-- Erasing the first element satisfying `q` does not change a filter by a
predicate `p` that no `q`-element satisfies. -/
theorem filter_eraseP_eq {α : Type} (p q : α → Bool) (l : List α)
    (h : ∀ a, q a = true → p a = false) :
    (l.eraseP q).filter p = l.filter p := by
  induction l with
  | nil => simp
  | cons a t ih =>
    by_cases hq : q a
    · rw [List.eraseP_cons_of_pos (l := t) hq,
        List.filter_cons_of_neg (by simp [h a hq])]
    · rw [List.eraseP_cons_of_neg (l := t) (by simp [hq])]
      by_cases hp : p a
      · rw [List.filter_cons_of_pos hp, List.filter_cons_of_pos hp, ih]
      · rw [List.filter_cons_of_neg (by simp [hp]),
          List.filter_cons_of_neg (by simp [hp]), ih]

/-- After erasing the first element satisfying `p` from a list that contains
at most one such element, no element satisfying `p` remains. -/
theorem find?_eraseP_eq_none {α : Type} (p : α → Bool) (l : List α)
    (h : (l.filter p).length ≤ 1) : (l.eraseP p).find? p = none := by
  induction l with
  | nil => simp
  | cons a t ih =>
    by_cases hp : p a
    · rw [List.eraseP_cons_of_pos (l := t) hp, List.find?_eq_none]
      intro x hx hpx
      rw [List.filter_cons_of_pos hp] at h
      have h0 : (t.filter p).length = 0 := by
        simp only [List.length_cons] at h
        omega
      rw [List.length_eq_zero] at h0
      have : x ∈ t.filter p := List.mem_filter.mpr ⟨hx, hpx⟩
      rw [h0] at this
      exact absurd this (List.not_mem_nil x)
    · rw [List.eraseP_cons_of_neg (l := t) (by simp [hp]),
        List.find?_cons_of_neg _ hp]
      apply ih
      rw [List.filter_cons_of_neg (by simp [hp])] at h
      exact h

/-- Claim C4: `restoreSession` fails with exactly one of the four rejection
values and they are mutually distinguishable: `invalidOffset` iff the offset
is not a structurally valid ObjectId (checked before any store access: the
result is `(.error .invalidOffset, log)` with the store untouched, regardless
of the failure flags); `fetchError` iff the offset is valid and the fetch
phase fails; `sessionNotFound` iff the fetch phase succeeds and the session
record or the broadcast record at the offset is missing; `scanError` iff both
records were found and the scan phase fails; success in every remaining case;
and the four rejection messages are pairwise distinct. -/
theorem restore_error_taxonomy (nspName pid offset : String)
    (fetchFails scanFails : Bool) (log : Store) :
    (objectIdIsValid offset = false →
      restoreSession nspName pid offset fetchFails scanFails log
        = (.error .invalidOffset, log))
    ∧ ((restoreSession nspName pid offset fetchFails scanFails log).1
        = .error .invalidOffset ↔ objectIdIsValid offset = false)
    ∧ ((restoreSession nspName pid offset fetchFails scanFails log).1
        = .error .fetchError
       ↔ objectIdIsValid offset = true ∧ fetchFails = true)
    ∧ ((restoreSession nspName pid offset fetchFails scanFails log).1
        = .error .sessionNotFound
       ↔ objectIdIsValid offset = true ∧ fetchFails = false
         ∧ ((findOneAndDeleteSession pid log).1 = none
            ∨ findBroadcastAt (parseHexNat offset) log = none))
    ∧ ((restoreSession nspName pid offset fetchFails scanFails log).1
        = .error .scanError
       ↔ objectIdIsValid offset = true ∧ fetchFails = false
         ∧ scanFails = true
         ∧ (findOneAndDeleteSession pid log).1 ≠ none
         ∧ findBroadcastAt (parseHexNat offset) log ≠ none)
    ∧ ((∃ s, (restoreSession nspName pid offset fetchFails scanFails log).1
          = .ok s)
       ↔ objectIdIsValid offset = true ∧ fetchFails = false
         ∧ scanFails = false
         ∧ (findOneAndDeleteSession pid log).1 ≠ none
         ∧ findBroadcastAt (parseHexNat offset) log ≠ none)
    ∧ (∀ e₁ e₂ : RestoreError, e₁.message = e₂.message → e₁ = e₂) := by
  have hmsg : ∀ e₁ e₂ : RestoreError, e₁.message = e₂.message → e₁ = e₂ := by
    intro e₁ e₂ hm
    cases e₁ <;> cases e₂ <;>
      first
      | rfl
      | exact absurd hm (by simp [RestoreError.message])
  by_cases hv : objectIdIsValid offset
  · cases fetchFails with
    | true =>
      have hr : restoreSession nspName pid offset true scanFails log
          = (.error .fetchError, log) := by
        unfold restoreSession
        simp [hv]
      refine ⟨?_, ?_, ?_, ?_, ?_, ?_, hmsg⟩ <;> simp [hr, hv]
    | false =>
      rcases hfd : (findOneAndDeleteSession pid log).1 with _ | sess0
      · have hr : restoreSession nspName pid offset false scanFails log
            = (.error .sessionNotFound, (findOneAndDeleteSession pid log).2) := by
          unfold restoreSession
          rcases hfb : findBroadcastAt (parseHexNat offset) log <;>
            simp [hv, hfd, hfb]
        refine ⟨?_, ?_, ?_, ?_, ?_, ?_, hmsg⟩ <;> simp [hr, hv, hfd]
      · rcases hfb : findBroadcastAt (parseHexNat offset) log with _ | bdoc
        · have hr : restoreSession nspName pid offset false scanFails log
              = (.error .sessionNotFound,
                 (findOneAndDeleteSession pid log).2) := by
            unfold restoreSession
            simp [hv, hfd, hfb]
          refine ⟨?_, ?_, ?_, ?_, ?_, ?_, hmsg⟩ <;> simp [hr, hv, hfd, hfb]
        · cases scanFails with
          | true =>
            have hr : restoreSession nspName pid offset false true log
                = (.error .scanError, (findOneAndDeleteSession pid log).2) := by
              unfold restoreSession
              simp [hv, hfd, hfb]
            refine ⟨?_, ?_, ?_, ?_, ?_, ?_, hmsg⟩ <;> simp [hr, hv, hfd, hfb]
          | false =>
            have hr : restoreSession nspName pid offset false false log
                = (.ok { sess0 with missedPackets :=
                    (((findOneAndDeleteSession pid log).2).filter
                      (replayQuery nspName (parseHexNat offset)
                        sess0.rooms)).filterMap docPacketData },
                   (findOneAndDeleteSession pid log).2) := by
              unfold restoreSession
              simp [hv, hfd, hfb]
            refine ⟨?_, ?_, ?_, ?_, ?_, ?_, hmsg⟩ <;> simp [hr, hv, hfd, hfb]
  · have hr : restoreSession nspName pid offset fetchFails scanFails log
        = (.error .invalidOffset, log) := by
      unfold restoreSession
      simp [hv]
    simp only [Bool.not_eq_true] at hv
    refine ⟨?_, ?_, ?_, ?_, ?_, ?_, hmsg⟩ <;> simp [hr, hv]

/-- Witness for C4: on an offset that is not a valid ObjectId, the call
rejects with `invalidOffset` and leaves the store untouched even though both
failure flags are raised. -/
theorem restore_error_taxonomy_witness :
    restoreSession "/" "p" "zz" true true []
      = (.error .invalidOffset, ([] : Store)) :=
  (restore_error_taxonomy "/" "p" "zz" true true []).1 (by decide)

/-- What a successful `restoreSession` (with healthy I/O) implies: the offset
was valid, the collection held a session record for `pid` whose first match
was removed, and the returned session is the stored blob with `missedPackets`
recomputed from the scan query. -/
theorem restoreSession_ok_spec {nspName pid offset : String}
    {log log' : Store} {sess : SessionInfo}
    (h : restoreSession nspName pid offset false false log = (.ok sess, log')) :
    objectIdIsValid offset = true
    ∧ (∃ d, log.find? (isSessionDocFor pid) = some d)
    ∧ log' = log.eraseP (isSessionDocFor pid)
    ∧ ∃ sess0, (findOneAndDeleteSession pid log).1 = some sess0
        ∧ sess.rooms = sess0.rooms
        ∧ sess.missedPackets
            = (log'.filter (replayQuery nspName (parseHexNat offset)
                sess0.rooms)).filterMap docPacketData := by
  by_cases hv : objectIdIsValid offset
  · rcases hfind : log.find? (isSessionDocFor pid) with _ | d
    · have hfd : findOneAndDeleteSession pid log = (none, log) := by
        rw [findOneAndDeleteSession, hfind]
      unfold restoreSession at h
      rcases hfb : findBroadcastAt (parseHexNat offset) log <;>
        simp [hv, hfd, hfb] at h
    · have hfd : findOneAndDeleteSession pid log
          = (docSession d, log.eraseP (isSessionDocFor pid)) := by
        rw [findOneAndDeleteSession, hfind]
      have hdp : isSessionDocFor pid d = true := List.find?_some hfind
      rcases hdata : d.data with _ | _ | _ | _ | _ | _ | s <;>
        simp only [isSessionDocFor, hdata, Bool.and_eq_true, beq_iff_eq,
          Bool.false_eq_true, and_false] at hdp
      · have hds : docSession d = some s := by rw [docSession, hdata]
        rw [hds] at hfd
        unfold restoreSession at h
        rcases hfb : findBroadcastAt (parseHexNat offset) log with _ | bdoc
        · simp [hv, hfd, hfb] at h
        · simp only [hv, Bool.not_true, Bool.false_eq_true, if_false, hfd,
            hfb, Prod.mk.injEq, Except.ok.injEq] at h
          obtain ⟨hsess, hlog⟩ := h
          refine ⟨hv, ⟨d, rfl⟩, hlog.symm, s, by rw [hfd], ?_, ?_⟩
          · rw [← hsess]
          · rw [← hsess, hlog]
  · unfold restoreSession at h
    simp [hv] at h

/-- The claim-side replay condition, in the claim's wording: the record is of
type `BROADCAST`, belongs to the namespace, its log position is strictly
greater than the offset, and it is a broadcast payload whose target room list
is empty or shares at least one room with the session's rooms, and whose
except room list is empty or shares no room with the session's rooms. -/
def includedInReplay (nspName : String) (off : Nat) (sessRooms : List String)
    (d : StoredDoc) : Bool :=
  d.type == EventType.BROADCAST && d.nsp == some nspName && off < d.pos &&
  (match d.data with
   | .broadcast _ o _ =>
     (o.rooms == [] || o.rooms.any (fun r => sessRooms.contains r)) &&
     (o.except == [] || o.except.all (fun r => !sessRooms.contains r))
   | _ => false)

/-- On any document that is a broadcast payload whenever its type says so,
the Mongo scan query agrees with the claim-side replay condition. -/
theorem replayQuery_eq_includedInReplay (nspName : String) (off : Nat)
    (sessRooms : List String) (d : StoredDoc)
    (hWF : d.type = EventType.BROADCAST →
      ∃ p o rid, d.data = EventData.broadcast p o rid) :
    replayQuery nspName off sessRooms d
      = includedInReplay nspName off sessRooms d := by
  by_cases ht : d.type = EventType.BROADCAST
  · obtain ⟨p, o, rid, hdata⟩ := hWF ht
    rw [Bool.eq_iff_iff]
    simp only [replayQuery, includedInReplay, docOpts, hdata, ht,
      Bool.and_eq_true, Bool.or_eq_true, beq_iff_eq, Nat.beq_eq_true_eq,
      List.length_eq_zero, decide_eq_true_eq]
    tauto
  · have ht' : (d.type == EventType.BROADCAST) = false := by
      simpa using ht
    simp [replayQuery, includedInReplay, ht']

/-- A session record never satisfies the replay query (its type is `SESSION`,
not `BROADCAST`). -/
theorem replayQuery_session_false (nspName : String) (off : Nat)
    (sessRooms : List String) (pid : String) (d : StoredDoc)
    (h : isSessionDocFor pid d = true) :
    replayQuery nspName off sessRooms d = false := by
  rw [isSessionDocFor, Bool.and_eq_true, beq_iff_eq] at h
  rw [replayQuery]
  simp [h.1]

/-- Claim C3: for a successful `restoreSession(pid, offset)` with healthy
I/O, the returned session's `missedPackets` is exactly, in log order, the
packet data of the store's records satisfying the claim-side condition: type
`BROADCAST`, same namespace, log position strictly greater than the offset,
target room list empty or meeting the session's rooms, and except room list
empty or disjoint from the session's rooms.  `hWF` states that every record
of type `BROADCAST` indeed carries a broadcast payload, which holds for every
record the adapter publishes. -/
theorem restore_replay_characterization (nspName pid offset : String)
    (log : Store) (sess : SessionInfo) (log' : Store)
    (hWF : ∀ d ∈ log, d.type = EventType.BROADCAST →
      ∃ p o rid, d.data = EventData.broadcast p o rid)
    (h : restoreSession nspName pid offset false false log = (.ok sess, log')) :
    sess.missedPackets
      = (log.filter (includedInReplay nspName (parseHexNat offset)
          sess.rooms)).filterMap docPacketData := by
  obtain ⟨hv, ⟨d, hfind⟩, hlog, sess0, hfd, hrooms, hmissed⟩ :=
    restoreSession_ok_spec h
  rw [hmissed, hlog, hrooms]
  rw [filter_eraseP_eq _ _ _
    (fun a ha => replayQuery_session_false nspName _ sess0.rooms pid a ha)]
  congr 1
  exact List.filter_congr
    (fun x hx => replayQuery_eq_includedInReplay nspName _ sess0.rooms x
      (hWF x hx))

/-- The offset string of the C3 witness, the ObjectId rendering of log
position 1. -/
def c3off : String := "000000000000000000000001"

/-- The persisted session record of the C3 witness: pid "p3", rooms ["r1"]. -/
def c3sessDoc : StoredDoc :=
  { pos := 0, type := EventType.SESSION, uid := some "A", nsp := some "/",
    data := .session { pid := "p3", rooms := ["r1"] } }

/-- A broadcast record of the C3 witness with the given position, target and
except room lists, and payload. -/
def c3b (pos : Nat) (rooms exceptRooms : List String) (msg : String) :
    StoredDoc :=
  { pos := pos, type := EventType.BROADCAST, uid := some "A", nsp := some "/",
    data := .broadcast { data := [msg] }
      { rooms := rooms, except := exceptRooms } none }

/-- The store of the C3 witness: the session record, the broadcast at the
offset, then one broadcast with no room target (included), one targeting "r1"
(included), one targeting "r2" only (excluded), one excluding "r1"
(excluded). -/
def c3log : Store :=
  [c3sessDoc, c3b 1 [] [] "orig", c3b 2 [] [] "m1", c3b 3 ["r1"] [] "m2",
   c3b 4 ["r2"] [] "m3", c3b 5 [] ["r1"] "m4"]

/-- The session returned by the C3 witness's restore call. -/
def c3sess : SessionInfo :=
  { pid := "p3", rooms := ["r1"], missedPackets := [["m1"], ["m2"]] }

/-- Witness for C3 on the spec's own example: `missedPackets` equals the
claim-side filter of the store, and concretely contains exactly the no-target
and the "r1"-targeting broadcasts, in log order. -/
theorem restore_replay_characterization_witness :
    c3sess.missedPackets
      = ((c3log.filter (includedInReplay "/" (parseHexNat c3off)
          c3sess.rooms)).filterMap docPacketData)
    ∧ c3sess.missedPackets = [["m1"], ["m2"]] := by
  have hWF : ∀ d ∈ c3log, d.type = EventType.BROADCAST →
      ∃ p o rid, d.data = EventData.broadcast p o rid := by
    intro d hd ht
    simp only [c3log, List.mem_cons, List.not_mem_nil, or_false] at hd
    rcases hd with h | h | h | h | h | h <;> subst h <;>
      first
        | exact ⟨_, _, _, rfl⟩
        | exact absurd ht (by decide)
  exact ⟨restore_replay_characterization "/" "p3" c3off c3log c3sess
    (c3log.eraseP (isSessionDocFor "p3")) hWF (by decide), by decide⟩

/-- Claim C5: a persisted session record is consumed exactly once.  If the
store holds at most one session record for `pid` (the adapter persists one
record per private session id) and a restore succeeds, then a second restore
with the same `pid` and `offset` against the resulting store fails with the
session-not-found error: the `findOneAndDelete` of the first call removed the
record. -/
theorem restore_consumes_session (nspName pid offset : String)
    (log log' : Store) (sess : SessionInfo)
    (hOnce : (log.filter (isSessionDocFor pid)).length ≤ 1)
    (h : restoreSession nspName pid offset false false log = (.ok sess, log')) :
    (restoreSession nspName pid offset false false log').1
      = .error .sessionNotFound := by
  obtain ⟨hv, ⟨d, hfind⟩, hlog, _⟩ := restoreSession_ok_spec h
  have hnone : log'.find? (isSessionDocFor pid) = none := by
    rw [hlog]
    exact find?_eraseP_eq_none _ _ hOnce
  have hfd : findOneAndDeleteSession pid log' = (none, log') := by
    rw [findOneAndDeleteSession, hnone]
  unfold restoreSession
  rcases hfb : findBroadcastAt (parseHexNat offset) log' <;>
    simp [hv, hfd, hfb]

/-- The offset string of the C5 witness, the ObjectId rendering of log
position 2. -/
def c5off : String := "000000000000000000000002"

/-- The store of the C5 witness: one session record for "p5" and the
broadcast record at the offset. -/
def c5log : Store :=
  [{ pos := 0, type := EventType.SESSION, uid := some "B", nsp := some "/",
     data := .session { pid := "p5", rooms := [] } },
   { pos := 2, type := EventType.BROADCAST, uid := some "B", nsp := some "/",
     data := .broadcast { data := ["x"] } {} none }]

/-- Witness for C5: after the first successful restore consumed the session
record, the second restore with the same pid and offset fails with the
session-not-found error. -/
theorem restore_consumes_session_witness :
    (restoreSession "/" "p5" c5off false false
        (c5log.eraseP (isSessionDocFor "p5"))).1
      = .error .sessionNotFound :=
  restore_consumes_session "/" "p5" c5off c5log
    (c5log.eraseP (isSessionDocFor "p5"))
    { pid := "p5", rooms := [], missedPackets := [] }
    (by decide) (by decide)

end MongoAdapter
